import Mathlib

/-!
Shallow embedding of the TCS34725 color-sensor component
(esphome/components/tcs34725/tcs34725.cpp).

Floating-point values are modelled as exact rationals; a NaN output
("undefined") is modelled as Option.none.  Unsigned 8/16-bit device
values are modelled as natural numbers.  The photometric converter
(calculate_temperature_and_lux_) becomes a pure function from the
relevant component fields and the four raw channels to the pair
(illuminance_, color_temperature_); the auto-exposure branch of
update() becomes a pure state transformer parameterised by the success
of the downstream register write.
-/

/-- Fields of TCS34725Component that the converter reads:
glass_attenuation_, integration_reg_, integration_time_ and gain_. -/
structure ConvSettings where
  glass_attenuation : ℚ
  integration_reg : ℕ
  integration_time : ℚ
  gain : ℚ
deriving DecidableEq

/-- Device Factor DF = 310. -/
def DF : ℚ := 310
/-- Adjusted red coefficient 0.58. -/
def R_COEF : ℚ := 58 / 100
/-- Adjusted green coefficient 1.444. -/
def G_COEF : ℚ := 1444 / 1000
/-- Adjusted blue coefficient 0.0. -/
def B_COEF : ℚ := 0
/-- Scaling factor 0.342. -/
def SCALING_FACTOR : ℚ := 342 / 1000
/-- Color temperature coefficient 3810. -/
def CT_COEF : ℚ := 3810
/-- Color temperature offset 1391. -/
def CT_OFFSET : ℚ := 1391
/-- Illuminance cap, 100000 lux. -/
def MAX_ILLUMINANCE : ℚ := 100000
/-- Maximum plausible color temperature, 15000 K. -/
def MAX_COLOR_TEMPERATURE : ℚ := 15000
/-- Minimum plausible color temperature, 1000 K. -/
def MIN_COLOR_TEMPERATURE : ℚ := 1000

/-- Digital/analog saturation threshold computed at lines 141-169: 65535
when 256 - integration_reg > 63, else 1024 * (256 - integration_reg);
reduced by a quarter when integration_time < 150 ms. -/
def satThreshold (integration_reg : ℕ) (integration_time : ℚ) : ℚ :=
  let sat : ℚ :=
    if 63 < 256 - (integration_reg : ℤ) then 65535
    else 1024 * (256 - (integration_reg : ℚ))
  if integration_time < 150 then sat - sat / 4 else sat

/-- check_saturation (lines 81-91) without the logging: a channel is
saturated when its raw value is at least the threshold. -/
def check_saturation (value : ℕ) (sat : ℚ) : Bool :=
  decide (sat ≤ (value : ℚ))

/-- The four-channel saturation test of lines 172-175, in source order
clear, red, green, blue. -/
def anySaturated (st : ConvSettings) (r g b c : ℕ) : Bool :=
  let sat := satThreshold st.integration_reg st.integration_time
  check_saturation c sat || check_saturation r sat ||
    check_saturation g sat || check_saturation b sat

/-- g1_scaled of lines 183-185: SCALING_FACTOR * (R_COEF*r + G_COEF*g + B_COEF*b). -/
def g1_scaled (r g b : ℕ) : ℚ :=
  SCALING_FACTOR * (R_COEF * (r : ℚ) + G_COEF * (g : ℚ) + B_COEF * (b : ℚ))

/-- Counts per lux, line 186: (integration_time * gain) / (ga * DF). -/
def cpl (st : ConvSettings) : ℚ :=
  st.integration_time * st.gain / (st.glass_attenuation * DF)

/-- The illuminance value assigned at line 190: max(g1_scaled / cpl, 0). -/
def rawIlluminance (st : ConvSettings) (r g b : ℕ) : ℚ :=
  max (g1_scaled r g b / cpl st) 0

/-- The color temperature assigned at line 207: CT_COEF * b / r + CT_OFFSET. -/
def rawColorTemperature (r b : ℕ) : ℚ :=
  CT_COEF * (b : ℚ) / (r : ℚ) + CT_OFFSET

/-- calculate_temperature_and_lux_ (lines 106-218) as a pure function
returning (illuminance_, color_temperature_); none stands for NAN.
The early returns of the source become the successive branches. -/
def calculate_temperature_and_lux_ (st : ConvSettings) (r g b c : ℕ) :
    Option ℚ × Option ℚ :=
  if c = 0 then (none, none)
  else if anySaturated st r g b c then (none, none)
  else if MAX_ILLUMINANCE < rawIlluminance st r g b then (none, none)
  else if r = 0 then (some (rawIlluminance st r g b), none)
  else if rawColorTemperature r b < MIN_COLOR_TEMPERATURE then
    (some (rawIlluminance st r g b), none)
  else if MAX_COLOR_TEMPERATURE < rawColorTemperature r b then
    (some (rawIlluminance st r g b), none)
  else (some (rawIlluminance st r g b), some (rawColorTemperature r b))

/-- Controller state touched by the auto-exposure branch of update():
integration_reg_, gain_reg_, gain_ and integration_time_. -/
structure CtrlState where
  integration_reg : ℕ
  gain_reg : ℕ
  gain : ℚ
  integration_time : ℚ
deriving DecidableEq

/-- set_gain (lines 383-402): gain multiplier from the gain register. -/
def gainFromReg (reg : ℕ) : ℚ :=
  if reg = 0 then 1
  else if reg = 1 then 4
  else if reg = 2 then 16
  else if reg = 3 then 60
  else 1

/-- Clear channel as a percentage of full scale: raw_c / 655.35. -/
def clearPct (raw_c : ℕ) : ℚ :=
  (raw_c : ℚ) / (65535 / 100)

/-- integration_time_ideal of line 315:
60 / (max(1, raw_c) / 655.35) * integration_time. -/
def idealTime (raw_c : ℕ) (integration_time : ℚ) : ℚ :=
  60 / (((max 1 raw_c : ℕ) : ℚ) / (65535 / 100)) * integration_time

/-- The two sequential gain-adjustment blocks of lines 317-336, returning
the new gain register value and the updated ideal integration time. -/
def gainAdjust (gain_reg raw_c : ℕ) (t ideal : ℚ) : ℕ × ℚ :=
  let s1 :=
    if gain_reg < 3 ∧ clearPct raw_c < 20 ∧ 600 < t then (gain_reg + 1, ideal / 4)
    else (gain_reg, ideal)
  if 0 < gain_reg ∧ 70 < clearPct raw_c ∧ t < 200 then (gain_reg - 1, s1.2 * 4)
  else s1

/-- The integration-time saturation of lines 338-345: both conditions test
the unclamped ideal value. -/
def clampIdeal (ideal : ℚ) : ℚ :=
  let next := if (12 / 5 : ℚ) * 256 < ideal then (12 / 5 : ℚ) * 256 else ideal
  if ideal < 154 then 154 else next

/-- Line 348: regval_atime = (uint8_t)(256 - t / 2.4); the cast truncates,
which for the nonnegative values produced here is the floor. -/
def regFromTime (t : ℚ) : ℕ :=
  (⌊(256 : ℚ) - t / (12 / 5)⌋).toNat

/-- Line 380 of set_integration_time: milliseconds from register,
(256 - regval) * 2.4. -/
def msFromReg (reg : ℕ) : ℚ :=
  (256 - (reg : ℚ)) * (12 / 5)

/-- The auto-exposure tail of update() (lines 310-364) as a pure state
transformer; writeOk tells whether the two register writes succeeded.
On the changed path the source assigns integration_reg_ and gain_reg_
(and gain_ via set_gain) before attempting the write, and assigns
integration_time_ only when the write succeeds. -/
def autoCycle (st : CtrlState) (raw_c : ℕ) (writeOk : Bool) : CtrlState :=
  let ga := gainAdjust st.gain_reg raw_c st.integration_time
    (idealTime raw_c st.integration_time)
  let gain_reg_val_new := ga.1
  let integration_time_next := clampIdeal ga.2
  let regval_atime := regFromTime integration_time_next
  if st.integration_reg ≠ regval_atime ∨ gain_reg_val_new ≠ st.gain_reg then
    let st1 : CtrlState :=
      { integration_reg := regval_atime, gain_reg := gain_reg_val_new,
        gain := gainFromReg gain_reg_val_new,
        integration_time := st.integration_time }
    if writeOk then { st1 with integration_time := integration_time_next } else st1
  else st

/-- The illuminance value of line 190 is clamped below by 0. -/
theorem rawIlluminance_nonneg (st : ConvSettings) (r g b : ℕ) :
    0 ≤ rawIlluminance st r g b :=
  le_max_right _ 0

/-- A channel at or above the threshold makes the four-channel test fire. -/
theorem anySaturated_eq_true_of (st : ConvSettings) (r g b c : ℕ)
    (h : satThreshold st.integration_reg st.integration_time ≤ (c : ℚ) ∨
      satThreshold st.integration_reg st.integration_time ≤ (r : ℚ) ∨
      satThreshold st.integration_reg st.integration_time ≤ (g : ℚ) ∨
      satThreshold st.integration_reg st.integration_time ≤ (b : ℚ)) :
    anySaturated st r g b c = true := by
  simp only [anySaturated, check_saturation, Bool.or_eq_true, decide_eq_true_eq]
  tauto

/-- C3: if at least one of the four channels has a raw count at or above
the computed saturation threshold, the converter returns both
illuminance and color temperature undefined, whatever the other
channels hold. -/
theorem C3_saturated_channel_discards_sample (st : ConvSettings) (r g b c : ℕ)
    (h : satThreshold st.integration_reg st.integration_time ≤ (c : ℚ) ∨
      satThreshold st.integration_reg st.integration_time ≤ (r : ℚ) ∨
      satThreshold st.integration_reg st.integration_time ≤ (g : ℚ) ∨
      satThreshold st.integration_reg st.integration_time ≤ (b : ℚ)) :
    calculate_temperature_and_lux_ st r g b c = (none, none) := by
  have hs := anySaturated_eq_true_of st r g b c h
  unfold calculate_temperature_and_lux_
  split_ifs <;> simp_all

/-- Witness for C3 at a concrete saturated input. -/
theorem C3_witness :
    calculate_temperature_and_lux_ ⟨1, 0, 3072 / 5, 1⟩ 65535 0 0 1 = (none, none) :=
  C3_saturated_channel_discards_sample ⟨1, 0, 3072 / 5, 1⟩ 65535 0 0 1
    (Or.inr (Or.inl (by norm_num [satThreshold])))

/-- C4: the saturation threshold is 1024*(256 - integration_reg) when
256 - integration_reg is at most 63, and 65535 otherwise, and it is
scaled by 3/4 exactly when the integration time is below 150 ms. -/
theorem C4_saturation_threshold_formula (reg : ℕ) (t : ℚ) :
    satThreshold reg t =
      (if 256 - (reg : ℤ) ≤ 63 then 1024 * (256 - (reg : ℚ)) else 65535) *
        (if t < 150 then 3 / 4 else 1) := by
  simp only [satThreshold]
  split_ifs
  all_goals try (exfalso; omega)
  all_goals ring

/-- Every illuminance output of the converter is either none, or the
computed nonnegative value, known not to exceed the cap. -/
theorem calc_fst_cases (st : ConvSettings) (r g b c : ℕ) :
    (calculate_temperature_and_lux_ st r g b c).1 = none ∨
    ((calculate_temperature_and_lux_ st r g b c).1 = some (rawIlluminance st r g b) ∧
      rawIlluminance st r g b ≤ MAX_ILLUMINANCE) := by
  unfold calculate_temperature_and_lux_
  split_ifs with h1 h2 h3 h4 h5 h6
  · exact Or.inl rfl
  · exact Or.inl rfl
  · exact Or.inl rfl
  · exact Or.inr ⟨rfl, not_lt.mp h3⟩
  · exact Or.inr ⟨rfl, not_lt.mp h3⟩
  · exact Or.inr ⟨rfl, not_lt.mp h3⟩
  · exact Or.inr ⟨rfl, not_lt.mp h3⟩

/-- When the computed illuminance is over the cap, the converter never
publishes an illuminance value. -/
theorem calc_fst_none_of_over (st : ConvSettings) (r g b c : ℕ)
    (hgt : MAX_ILLUMINANCE < rawIlluminance st r g b) :
    (calculate_temperature_and_lux_ st r g b c).1 = none := by
  rcases calc_fst_cases st r g b c with h | ⟨_, hle⟩
  · exact h
  · exact absurd hgt (not_lt.mpr hle)

/-- C5: every defined illuminance output lies in [0, 100000], and when the
computed illuminance exceeds 100000 the output is undefined rather than
clamped. -/
theorem C5_illuminance_bounds (st : ConvSettings) (r g b c : ℕ) :
    (∀ x : ℚ, (calculate_temperature_and_lux_ st r g b c).1 = some x →
      0 ≤ x ∧ x ≤ MAX_ILLUMINANCE) ∧
    (MAX_ILLUMINANCE < rawIlluminance st r g b →
      (calculate_temperature_and_lux_ st r g b c).1 = none) := by
  constructor
  · intro x hx
    rcases calc_fst_cases st r g b c with h | ⟨hsome, hle⟩
    · rw [h] at hx; exact absurd hx (by simp)
    · rw [hsome] at hx
      have hx2 := Option.some.inj hx
      subst hx2
      exact ⟨rawIlluminance_nonneg st r g b, hle⟩
  · exact calc_fst_none_of_over st r g b c

/-- Witness for C5: the defined illuminance at a concrete input is within
bounds. -/
theorem C5_witness :
    0 ≤ (447051 / 1280 : ℚ) ∧ (447051 / 1280 : ℚ) ≤ MAX_ILLUMINANCE :=
  (C5_illuminance_bounds ⟨1, 0, 3072 / 5, 1⟩ 1000 1000 1000 1000).1 (447051 / 1280)
    (by norm_num [calculate_temperature_and_lux_, anySaturated, check_saturation,
      satThreshold, rawIlluminance, g1_scaled, cpl, rawColorTemperature, R_COEF,
      G_COEF, B_COEF, SCALING_FACTOR, DF, CT_COEF, CT_OFFSET, MAX_ILLUMINANCE,
      MIN_COLOR_TEMPERATURE, MAX_COLOR_TEMPERATURE])

/-- C6: a raw sample with clear count 0 yields both outputs undefined for
every setting and every value of the other channels. -/
theorem C6_zero_clear_undefined (st : ConvSettings) (r g b : ℕ) :
    calculate_temperature_and_lux_ st r g b 0 = (none, none) := by
  unfold calculate_temperature_and_lux_
  simp

/-- When the gain-increase conditions of lines 321-327 hold, the gain
register is stepped up and the ideal time divided by 4. -/
theorem gainAdjust_of_inc (gain_reg raw_c : ℕ) (t ideal : ℚ)
    (h : gain_reg < 3 ∧ clearPct raw_c < 20 ∧ 600 < t) :
    gainAdjust gain_reg raw_c t ideal = (gain_reg + 1, ideal / 4) := by
  have hnd : ¬ (0 < gain_reg ∧ 70 < clearPct raw_c ∧ t < 200) := by
    rintro ⟨-, h2, -⟩
    linarith [h.2.1]
  simp only [gainAdjust, if_pos h, if_neg hnd]

/-- When the gain-decrease conditions of lines 330-336 hold, the gain
register is stepped down and the ideal time multiplied by 4. -/
theorem gainAdjust_of_dec (gain_reg raw_c : ℕ) (t ideal : ℚ)
    (h : 0 < gain_reg ∧ 70 < clearPct raw_c ∧ t < 200) :
    gainAdjust gain_reg raw_c t ideal = (gain_reg - 1, ideal * 4) := by
  have hni : ¬ (gain_reg < 3 ∧ clearPct raw_c < 20 ∧ 600 < t) := by
    rintro ⟨-, h1, -⟩
    linarith [h.2.1]
  simp only [gainAdjust, if_pos h, if_neg hni]

/-- When neither adjustment condition holds, gain and ideal time pass
through unchanged. -/
theorem gainAdjust_of_none (gain_reg raw_c : ℕ) (t ideal : ℚ)
    (hni : ¬ (gain_reg < 3 ∧ clearPct raw_c < 20 ∧ 600 < t))
    (hnd : ¬ (0 < gain_reg ∧ 70 < clearPct raw_c ∧ t < 200)) :
    gainAdjust gain_reg raw_c t ideal = (gain_reg, ideal) := by
  simp only [gainAdjust, if_neg hni, if_neg hnd]

/-- C7: per cycle the increase and decrease conditions are mutually
exclusive, each adjustment moves the gain register by one step with the
matching rescaling of the ideal time, and the resulting register stays
within [0,3] whenever the current one is. -/
theorem C7_gain_adjust_exclusive_and_bounded (gain_reg raw_c : ℕ) (t ideal : ℚ)
    (hg : gain_reg ≤ 3) :
    ¬ ((gain_reg < 3 ∧ clearPct raw_c < 20 ∧ 600 < t) ∧
        (0 < gain_reg ∧ 70 < clearPct raw_c ∧ t < 200)) ∧
    ((gain_reg < 3 ∧ clearPct raw_c < 20 ∧ 600 < t) →
      gainAdjust gain_reg raw_c t ideal = (gain_reg + 1, ideal / 4)) ∧
    ((0 < gain_reg ∧ 70 < clearPct raw_c ∧ t < 200) →
      gainAdjust gain_reg raw_c t ideal = (gain_reg - 1, ideal * 4)) ∧
    (gainAdjust gain_reg raw_c t ideal).1 ≤ 3 := by
  refine ⟨?_, gainAdjust_of_inc gain_reg raw_c t ideal,
    gainAdjust_of_dec gain_reg raw_c t ideal, ?_⟩
  · rintro ⟨⟨-, h1, -⟩, ⟨-, h2, -⟩⟩
    linarith
  · by_cases hd : 0 < gain_reg ∧ 70 < clearPct raw_c ∧ t < 200
    · rw [gainAdjust_of_dec gain_reg raw_c t ideal hd]
      exact le_trans (Nat.sub_le _ _) hg
    · by_cases hi : gain_reg < 3 ∧ clearPct raw_c < 20 ∧ 600 < t
      · rw [gainAdjust_of_inc gain_reg raw_c t ideal hi]
        exact hi.1
      · rw [gainAdjust_of_none gain_reg raw_c t ideal hi hd]
        exact hg

/-- Witness for C7 at a concrete bright-sample cycle. -/
theorem C7_witness : (gainAdjust 0 65535 (768 / 5) 100).1 ≤ 3 :=
  (C7_gain_adjust_exclusive_and_bounded 0 65535 (768 / 5) 100 (by norm_num)).2.2.2

/-- The two saturating conditionals of lines 338-345 amount to clamping
into [154, 614.4]. -/
theorem clampIdeal_eq (ideal : ℚ) :
    clampIdeal ideal = max 154 (min ideal (3072 / 5)) := by
  simp only [clampIdeal]
  split_ifs with h1 h2
  · rw [min_eq_left (by linarith : ideal ≤ 3072 / 5), max_eq_left (by linarith)]
  · rw [min_eq_right (by linarith : (3072 / 5 : ℚ) ≤ ideal),
      max_eq_right (by norm_num : (154 : ℚ) ≤ 3072 / 5)]
    norm_num
  · rw [min_eq_left (by linarith : ideal ≤ 3072 / 5), max_eq_right (by linarith)]

/-- C8: the proposed integration register is the rounded-down value of
256 minus the clamped ideal time over 2.4, the clamp keeping the time in
[154 ms, 614.4 ms]; ideal times 1000 ms and 50 ms clamp to 614.4 ms and
154 ms respectively. -/
theorem C8_clamp_and_quantize :
    (∀ ideal : ℚ, clampIdeal ideal = max 154 (min ideal (3072 / 5))) ∧
    (∀ ideal : ℚ, regFromTime (clampIdeal ideal) =
      (⌊(256 : ℚ) - max 154 (min ideal (3072 / 5)) / (12 / 5)⌋).toNat) ∧
    clampIdeal 1000 = 3072 / 5 ∧ clampIdeal 50 = 154 := by
  refine ⟨clampIdeal_eq, fun ideal => by rw [clampIdeal_eq]; rfl, ?_, ?_⟩
  · rw [clampIdeal_eq]
    norm_num [min_def, max_def]
  · rw [clampIdeal_eq]
    norm_num [min_def, max_def]

/-- Converting a register to milliseconds and quantizing back recovers the
register exactly. -/
theorem regFromTime_msFromReg (reg : ℕ) : regFromTime (msFromReg reg) = reg := by
  unfold regFromTime msFromReg
  have h : (256 : ℚ) - (256 - (reg : ℚ)) * (12 / 5) / (12 / 5) = (reg : ℚ) := by
    field_simp
  rw [h, Int.floor_natCast, Int.toNat_natCast]

/-- C9: for every 8-bit integration register value, the
milliseconds-and-back round trip lands within one register step (in fact
it recovers the register exactly). -/
theorem C9_register_roundtrip (reg : ℕ) (h : reg ≤ 255) :
    regFromTime (msFromReg reg) = reg ∧
    (regFromTime (msFromReg reg) : ℤ) - (reg : ℤ) ≤ 1 ∧
    (reg : ℤ) - (regFromTime (msFromReg reg) : ℤ) ≤ 1 := by
  rw [regFromTime_msFromReg]
  exact ⟨rfl, by omega, by omega⟩

/-- Witness for C9 at register value 100. -/
theorem C9_witness :
    regFromTime (msFromReg 100) = 100 ∧
    (regFromTime (msFromReg 100) : ℤ) - (100 : ℤ) ≤ 1 ∧
    (100 : ℤ) - (regFromTime (msFromReg 100) : ℤ) ≤ 1 :=
  C9_register_roundtrip 100 (by norm_num)

/-- Shape of the color-temperature output once the clear, saturation,
illuminance-limit and zero-red guards have all passed. -/
theorem calc_snd_clear (st : ConvSettings) (r g b c : ℕ) (hc : c ≠ 0)
    (hsat : anySaturated st r g b c = false)
    (hill : rawIlluminance st r g b ≤ MAX_ILLUMINANCE) (hr : r ≠ 0) :
    (calculate_temperature_and_lux_ st r g b c).2 =
      if rawColorTemperature r b < MIN_COLOR_TEMPERATURE then none
      else if MAX_COLOR_TEMPERATURE < rawColorTemperature r b then none
      else some (rawColorTemperature r b) := by
  unfold calculate_temperature_and_lux_
  rw [if_neg hc, if_neg (by simp [hsat]), if_neg (not_lt.mpr hill), if_neg hr]
  split_ifs <;> rfl

/-- C10: whenever the color-temperature computation is reached, the
computed value 3810*b/r + 1391 is at least the offset 1391, so the
below-1000 guard never fires and the output is the computed value unless
it exceeds 15000. -/
theorem C10_ct_lower_guard_unreachable (st : ConvSettings) (r g b c : ℕ)
    (hc : c ≠ 0) (hsat : anySaturated st r g b c = false)
    (hill : rawIlluminance st r g b ≤ MAX_ILLUMINANCE) (hr : r ≠ 0) :
    CT_OFFSET ≤ rawColorTemperature r b ∧
    (calculate_temperature_and_lux_ st r g b c).2 =
      (if MAX_COLOR_TEMPERATURE < rawColorTemperature r b then none
        else some (rawColorTemperature r b)) := by
  have hge : CT_OFFSET ≤ rawColorTemperature r b := by
    unfold rawColorTemperature CT_COEF CT_OFFSET
    have hq : 0 ≤ 3810 * (b : ℚ) / (r : ℚ) := by positivity
    linarith
  have hnlt : ¬ rawColorTemperature r b < MIN_COLOR_TEMPERATURE := by
    unfold MIN_COLOR_TEMPERATURE
    unfold CT_OFFSET at hge
    linarith
  exact ⟨hge, by rw [calc_snd_clear st r g b c hc hsat hill hr, if_neg hnlt]⟩

/-- Witness for C10 at a concrete unsaturated sample. -/
theorem C10_witness :
    CT_OFFSET ≤ rawColorTemperature 2000 500 ∧
    (calculate_temperature_and_lux_ ⟨1, 100, 1872 / 5, 4⟩ 2000 1000 500 2500).2 =
      (if MAX_COLOR_TEMPERATURE < rawColorTemperature 2000 500 then none
        else some (rawColorTemperature 2000 500)) :=
  C10_ct_lower_guard_unreachable ⟨1, 100, 1872 / 5, 4⟩ 2000 1000 500 2500
    (by norm_num)
    (by norm_num [anySaturated, check_saturation, satThreshold])
    (by norm_num [rawIlluminance, g1_scaled, cpl, R_COEF, G_COEF, B_COEF,
      SCALING_FACTOR, DF, MAX_ILLUMINANCE])
    (by norm_num)

/-- C1 fails on the code: at this input the sample passes the saturation
checks, red is nonzero and the computed color temperature lies inside
[1000, 15000], yet because the computed illuminance exceeds 100000 the
converter returns early and the color temperature output is undefined. -/
theorem C1_counterexample :
    (2300 : ℕ) ≠ 0 ∧
    anySaturated ⟨2, 253, 36 / 5, 1⟩ 2300 2300 1000 2300 = false ∧
    MIN_COLOR_TEMPERATURE ≤ rawColorTemperature 2300 1000 ∧
    rawColorTemperature 2300 1000 ≤ MAX_COLOR_TEMPERATURE ∧
    MAX_ILLUMINANCE < rawIlluminance ⟨2, 253, 36 / 5, 1⟩ 2300 2300 1000 ∧
    (calculate_temperature_and_lux_ ⟨2, 253, 36 / 5, 1⟩ 2300 2300 1000 2300).2 = none := by
  refine ⟨by norm_num, ?_, ?_, ?_, ?_, ?_⟩
  · norm_num [anySaturated, check_saturation, satThreshold]
  · norm_num [rawColorTemperature, CT_COEF, CT_OFFSET, MIN_COLOR_TEMPERATURE]
  · norm_num [rawColorTemperature, CT_COEF, CT_OFFSET, MAX_COLOR_TEMPERATURE]
  · norm_num [rawIlluminance, g1_scaled, cpl, R_COEF, G_COEF, B_COEF,
      SCALING_FACTOR, DF, MAX_ILLUMINANCE]
  · norm_num [calculate_temperature_and_lux_, anySaturated, check_saturation,
      satThreshold, rawIlluminance, g1_scaled, cpl, rawColorTemperature, R_COEF,
      G_COEF, B_COEF, SCALING_FACTOR, DF, CT_COEF, CT_OFFSET, MAX_ILLUMINANCE,
      MIN_COLOR_TEMPERATURE, MAX_COLOR_TEMPERATURE]

/-- C1 amended: with saturation cleared, red nonzero and the computed
color temperature within [1000, 15000], the color-temperature output is
the computed value exactly when the computed illuminance does not exceed
100000; when the illuminance limit fires, the converter returns early
and the color temperature is undefined as well. -/
theorem C1_ct_gated_by_illuminance_limit (st : ConvSettings) (r g b c : ℕ)
    (hc : c ≠ 0) (hsat : anySaturated st r g b c = false) (hr : r ≠ 0)
    (hct1 : MIN_COLOR_TEMPERATURE ≤ rawColorTemperature r b)
    (hct2 : rawColorTemperature r b ≤ MAX_COLOR_TEMPERATURE) :
    (calculate_temperature_and_lux_ st r g b c).2 =
      (if rawIlluminance st r g b ≤ MAX_ILLUMINANCE then
        some (rawColorTemperature r b)
      else none) := by
  by_cases hill : rawIlluminance st r g b ≤ MAX_ILLUMINANCE
  · rw [if_pos hill, calc_snd_clear st r g b c hc hsat hill hr,
      if_neg (not_lt.mpr hct1), if_neg (not_lt.mpr hct2)]
  · rw [if_neg hill]
    unfold calculate_temperature_and_lux_
    rw [if_neg hc, if_neg (by simp [hsat]), if_pos (not_le.mp hill)]

/-- Witness for the amended C1 on both sides of the illuminance limit. -/
theorem C1_witness :
    (calculate_temperature_and_lux_ ⟨1, 0, 3072 / 5, 1⟩ 4000 5000 1000 10000).2 =
      (if rawIlluminance ⟨1, 0, 3072 / 5, 1⟩ 4000 5000 1000 ≤ MAX_ILLUMINANCE then
        some (rawColorTemperature 4000 1000)
      else none) :=
  C1_ct_gated_by_illuminance_limit ⟨1, 0, 3072 / 5, 1⟩ 4000 5000 1000 10000
    (by norm_num)
    (by norm_num [anySaturated, check_saturation, satThreshold])
    (by norm_num)
    (by norm_num [rawColorTemperature, CT_COEF, CT_OFFSET, MIN_COLOR_TEMPERATURE])
    (by norm_num [rawColorTemperature, CT_COEF, CT_OFFSET, MAX_COLOR_TEMPERATURE])

/-- Quantizing the clamped minimum time of 154 ms gives register 191. -/
theorem regFromTime_154 : regFromTime 154 = 191 := by
  have hf : ⌊(256 : ℚ) - 154 / (12 / 5)⌋ = 191 := by
    rw [Int.floor_eq_iff]
    constructor <;> norm_num
  unfold regFromTime
  rw [hf]
  rfl

/-- C2 fails on the code: in this auto cycle the proposed integration
register 191 differs from the current 192 and the write fails, yet the
integration register advances to 191; only the cached integration time
stays at its pre-attempt value. -/
theorem C2_counterexample :
    regFromTime (clampIdeal
      (gainAdjust 0 65535 (768 / 5) (idealTime 65535 (768 / 5))).2) = 191 ∧
    (191 : ℕ) ≠ 192 ∧
    (autoCycle ⟨192, 0, 1, 768 / 5⟩ 65535 false).integration_reg = 191 ∧
    (autoCycle ⟨192, 0, 1, 768 / 5⟩ 65535 false).integration_time = 768 / 5 := by
  have h1 : idealTime 65535 (768 / 5) = 2304 / 25 := by
    norm_num [idealTime]
  have h2 : gainAdjust 0 65535 (768 / 5) (2304 / 25) = (0, 2304 / 25) := by
    norm_num [gainAdjust, clearPct]
  have h3 : clampIdeal (2304 / 25 : ℚ) = 154 := by
    rw [clampIdeal_eq]
    norm_num [min_def, max_def]
  have hcycle : autoCycle ⟨192, 0, 1, 768 / 5⟩ 65535 false =
      ⟨191, 0, gainFromReg 0, 768 / 5⟩ := by
    unfold autoCycle
    dsimp only
    rw [h1, h2]
    dsimp only
    rw [h3, regFromTime_154]
    rw [if_pos (by norm_num : (192 : ℕ) ≠ 191 ∨ (0 : ℕ) ≠ 0)]
    rfl
  refine ⟨?_, by norm_num, by rw [hcycle], by rw [hcycle]⟩
  rw [h1, h2, h3, regFromTime_154]

/-- C2 amended: when the downstream write fails, the cached integration
time in milliseconds keeps its pre-attempt value, but the integration
and gain registers have already been set to the proposed values and are
not rolled back. -/
theorem C2_failed_write_keeps_time_but_registers_advance
    (st : CtrlState) (raw_c : ℕ) :
    (autoCycle st raw_c false).integration_time = st.integration_time ∧
    (autoCycle st raw_c false).integration_reg =
      regFromTime (clampIdeal
        (gainAdjust st.gain_reg raw_c st.integration_time
          (idealTime raw_c st.integration_time)).2) ∧
    (autoCycle st raw_c false).gain_reg =
      (gainAdjust st.gain_reg raw_c st.integration_time
        (idealTime raw_c st.integration_time)).1 := by
  unfold autoCycle
  dsimp only
  split_ifs with h h2
  · exact absurd h2 (by simp)
  · exact ⟨rfl, rfl, rfl⟩
  · push_neg at h
    exact ⟨rfl, h.1, h.2.symm⟩
